import Mathlib

/-!
Verification of the planet-history-sim engine against its specification.

The JavaScript sources are shallowly embedded: JS numbers become rationals
(all the constants involved are exactly representable), arrays become lists,
objects become structures, and every use of the pseudo-random stream or of
the wall clock becomes an explicit parameter.  Definitions follow the source
files (src/events.js, src/war.js, src/Entities.js, src/ai.js,
src/Simulation.js, src/World.js, src/unnamed/part_000 = utils.js,
src/unnamed/part_001 = the monolithic prototype) statement by statement.
-/

namespace PlanetSim

/-! ## Event system (src/events.js)

An event object as built by EventSystem.logEvent.  The source stamps each
event with Date.now(); the wall clock is modelled as the explicit parameter
now, so that dependence on it is visible in the embedding. -/

structure SimEvent where
  year : Int
  message : String
  location : Option (Int × Int)
  evType : String
  timestamp : Int
deriving DecidableEq, Repr

/-- State of EventSystem: the surface list (this.events) and the latent
list (this.latentEvents). -/
structure EventSystem where
  events : List SimEvent
  latentEvents : List SimEvent
deriving DecidableEq, Repr

def EventSystem.empty : EventSystem := ⟨[], []⟩

/-- this.maxVisibleEvents in the EventSystem constructor. -/
def maxVisibleEvents : Nat := 200

/-- EventSystem.logEvent (src/events.js lines 10-31).  Builds the event
record, appends surface events to this.events (shifting the oldest when the
list exceeds 200), appends latent events to this.latentEvents, and drops
events of any other type string. -/
def EventSystem.logEvent (es : EventSystem) (year : Int) (message : String)
    (location : Option (Int × Int)) (evType : String) (now : Int) :
    EventSystem :=
  let event : SimEvent := ⟨year, message, location, evType, now⟩
  if evType = "surface" then
    let evs := es.events ++ [event]
    { es with events := if maxVisibleEvents < evs.length then evs.tail else evs }
  else if evType = "latent" then
    { es with latentEvents := es.latentEvents ++ [event] }
  else
    es

/-- Arguments of one logEvent call (the wall-clock reading included). -/
structure LogCall where
  year : Int
  message : String
  location : Option (Int × Int)
  evType : String
  now : Int
deriving DecidableEq, Repr

def mkEvent (c : LogCall) : SimEvent :=
  ⟨c.year, c.message, c.location, c.evType, c.now⟩

def applyLog (es : EventSystem) (c : LogCall) : EventSystem :=
  es.logEvent c.year c.message c.location c.evType c.now

/-- Replay a whole sequence of logEvent calls from a fresh EventSystem. -/
def runLog (calls : List LogCall) : EventSystem :=
  calls.foldl applyLog EventSystem.empty

def isSurface (e : SimEvent) : Bool := e.evType = "surface"

def isLatent (e : SimEvent) : Bool := e.evType = "latent"

/-- The surface events of a call history, newest first. -/
def surfaceHist (calls : List LogCall) : List SimEvent :=
  ((calls.map mkEvent).filter isSurface).reverse

/-! ## Biome ladder (src/unnamed/part_001, determineBiome, lines 529-549) -/

/-- determineBiome from the tile-system prototype, translated clause by
clause; elevation, temperature and rainfall are JS numbers, modelled as
rationals. -/
def determineBiome (elevation temperature rainfall : ℚ) : String :=
  if elevation ≤ 0 then "ocean"
  else if temperature < -0.5 then "ice"
  else if temperature < -0.2 then "tundra"
  else if 0.7 < elevation then "alpine"
  else if rainfall < 0.2 then "desert"
  else if rainfall < 0.4 then (if 0.3 < temperature then "savanna" else "grassland")
  else if rainfall < 0.7 then (if 0.4 < temperature then "jungle" else "forest")
  else if 0.5 < temperature then "jungle"
  else "forest"

/-! ## Battle resolution (src/war.js, War.resolveBattle, lines 94-104) -/

/-- War.resolveBattle: the roll is the value returned by rng.next(). -/
def resolveBattle (attackerAdvantage roll : ℚ) : String :=
  if roll < attackerAdvantage * 0.6 then "attacker"
  else if 0.7 < roll then "defender"
  else "stalemate"

/-! ## Speed control (src/Simulation.js, setSpeed / shouldTick, lines 67-78) -/

/-- this.tickIntervals = [0, 2000, 600, 200, 50] (ms per tick per speed). -/
def tickIntervals : List ℚ := [0, 2000, 600, 200, 50]

/-- Simulation.setSpeed: this.speed = Math.max(0, Math.min(4, speed)). -/
def setSpeed (speed : ℚ) : ℚ := max 0 (min 4 speed)

/-- Simulation.shouldTick for an integral stored speed: paused or stopped
returns false, otherwise compares the elapsed time against the interval
looked up at index speed. -/
def shouldTick (speed : ℤ) (running : Bool) (currentTime lastTickTime : ℚ) : Bool :=
  if speed = 0 ∨ running = false then false
  else
    match tickIntervals.get? speed.toNat with
    | some interval => decide (interval ≤ currentTime - lastTickTime)
    | none => false

/-! ## Lemmas about the event log -/

theorem logEvent_surface_inv (es : EventSystem) (c : LogCall) (h : List SimEvent)
    (hs : es.events.reverse = ((h.filter isSurface).reverse).take 200) :
    (applyLog es c).events.reverse =
      (((h ++ [mkEvent c]).filter isSurface).reverse).take 200 := by
  have hlen : es.events.length ≤ 200 := by
    have := congrArg List.length hs
    simpa using le_trans (le_of_eq this) (List.length_take_le _ _)
  unfold applyLog EventSystem.logEvent
  by_cases hty : c.evType = "surface"
  · have hse : isSurface (mkEvent c) = true := by simp [isSurface, mkEvent, hty]
    have hfl : (h ++ [mkEvent c]).filter isSurface = h.filter isSurface ++ [mkEvent c] := by
      simp [List.filter_append, hse]
    have hrhs : (((h ++ [mkEvent c]).filter isSurface).reverse).take 200 =
        mkEvent c :: ((h.filter isSurface).reverse).take 199 := by
      rw [hfl, List.reverse_append, List.reverse_singleton, List.singleton_append,
        show (200 : Nat) = 199 + 1 from rfl, List.take_succ_cons]
    rw [hrhs]
    simp only [mkEvent]
    rw [if_pos (by simpa [mkEvent] using hty)]
    rcases lt_or_le es.events.length 200 with hlt | hge
    · have hnoshift : ¬ maxVisibleEvents < (es.events ++ [(⟨c.year, c.message, c.location,
          c.evType, c.now⟩ : SimEvent)]).length := by
        simp only [List.length_append, List.length_singleton, maxVisibleEvents]
        omega
      rw [if_neg hnoshift]
      have hXshort : ((h.filter isSurface).reverse).length ≤ 199 := by
        by_contra hc
        push_neg at hc
        have hlone : (((h.filter isSurface).reverse).take 200).length = 200 := by
          rw [List.length_take]; omega
        have h2 := congrArg List.length hs
        rw [hlone, List.length_reverse] at h2
        omega
      have htake200 : ((h.filter isSurface).reverse).take 200 = (h.filter isSurface).reverse :=
        List.take_of_length_le (by omega)
      have htake199 : ((h.filter isSurface).reverse).take 199 = (h.filter isSurface).reverse :=
        List.take_of_length_le (by omega)
      rw [htake199, List.reverse_append, List.reverse_singleton, List.singleton_append,
        hs, htake200]
    · have hexact : es.events.length = 200 := le_antisymm hlen hge
      have hne : es.events ≠ [] := by
        intro hnil; rw [hnil] at hexact; simp at hexact
      obtain ⟨a, as, hcons⟩ := List.exists_cons_of_ne_nil hne
      have haslen : as.length = 199 := by
        have h0 := hexact; rw [hcons] at h0; simpa using h0
      have hshift : maxVisibleEvents < (es.events ++ [(⟨c.year, c.message, c.location,
          c.evType, c.now⟩ : SimEvent)]).length := by
        simp only [List.length_append, List.length_singleton, maxVisibleEvents, hexact]
        omega
      rw [if_pos hshift]
      have hinv : as.reverse ++ [a] = ((h.filter isSurface).reverse).take 200 := by
        rw [hcons] at hs; simpa using hs
      have hastake : as.reverse = ((h.filter isSurface).reverse).take 199 := by
        have h199 : (as.reverse ++ [a]).take 199 = as.reverse := by
          rw [List.take_append_of_le_length (by simp [haslen])]
          exact List.take_of_length_le (by simp [haslen])
        calc as.reverse = (as.reverse ++ [a]).take 199 := h199.symm
          _ = (((h.filter isSurface).reverse).take 200).take 199 := by rw [hinv]
          _ = ((h.filter isSurface).reverse).take 199 := by
              rw [List.take_take]; norm_num
      have htail : (es.events ++ [(⟨c.year, c.message, c.location,
          c.evType, c.now⟩ : SimEvent)]).tail = as ++ [(⟨c.year, c.message, c.location,
          c.evType, c.now⟩ : SimEvent)] := by
        rw [hcons]; rfl
      rw [htail, List.reverse_append, List.reverse_singleton, List.singleton_append, hastake]
  · have hse : isSurface (mkEvent c) = false := by simp [isSurface, mkEvent, hty]
    have hfl : (h ++ [mkEvent c]).filter isSurface = h.filter isSurface := by
      simp [List.filter_append, hse]
    rw [if_neg (by simpa [mkEvent] using hty)]
    by_cases hty2 : c.evType = "latent"
    · rw [if_pos (by simpa using hty2)]
      simpa [hfl] using hs
    · rw [if_neg (by simpa using hty2)]
      simpa [hfl] using hs

theorem logEvent_latent_inv (es : EventSystem) (c : LogCall) (h : List SimEvent)
    (hl : es.latentEvents = h.filter isLatent) :
    (applyLog es c).latentEvents = (h ++ [mkEvent c]).filter isLatent := by
  unfold applyLog EventSystem.logEvent
  by_cases hty : c.evType = "surface"
  · have hle : isLatent (mkEvent c) = false := by simp [isLatent, mkEvent, hty]
    rw [if_pos (by simpa [mkEvent] using hty)]
    simpa [List.filter_append, hle] using hl
  · rw [if_neg (by simpa [mkEvent] using hty)]
    by_cases hty2 : c.evType = "latent"
    · rw [if_pos (by simpa using hty2)]
      have hle : isLatent (⟨c.year, c.message, c.location, c.evType, c.now⟩ : SimEvent)
          = true := by simp [isLatent, hty2]
      simp [List.filter_append, hl, mkEvent, hle]
    · have hle : isLatent (mkEvent c) = false := by simp [isLatent, mkEvent, hty2]
      rw [if_neg (by simpa using hty2)]
      simpa [List.filter_append, hle] using hl

theorem runLog_inv : ∀ (calls : List LogCall) (es : EventSystem) (h : List SimEvent),
    es.events.reverse = ((h.filter isSurface).reverse).take 200 →
    es.latentEvents = h.filter isLatent →
    ((calls.foldl applyLog es).events.reverse =
        (((h ++ calls.map mkEvent).filter isSurface).reverse).take 200 ∧
      (calls.foldl applyLog es).latentEvents = (h ++ calls.map mkEvent).filter isLatent)
  | [], es, h, hs, hl => by simpa using ⟨hs, hl⟩
  | c :: cs, es, h, hs, hl => by
    have step := runLog_inv cs (applyLog es c) (h ++ [mkEvent c])
      (logEvent_surface_inv es c h hs) (logEvent_latent_inv es c h hl)
    simpa [List.foldl_cons, List.append_assoc] using step

/-- C9.  The event log is append-only and split into surface and latent
streams: after any sequence of logEvent calls the surface stream holds at
most 200 events, namely exactly the most recent surface events in logging
order (stated via reversal: newest-first it is the 200-prefix of the
newest-first surface history), while the latent stream holds every latent
event ever logged. -/
theorem claim_C9_event_log_streams (calls : List LogCall) :
    (runLog calls).events.reverse =
        (((calls.map mkEvent).filter isSurface).reverse).take 200 ∧
      (runLog calls).latentEvents = (calls.map mkEvent).filter isLatent ∧
      (runLog calls).events.length ≤ 200 := by
  have h := runLog_inv calls EventSystem.empty [] (by simp [EventSystem.empty])
    (by simp [EventSystem.empty])
  refine ⟨by simpa using h.1, by simpa using h.2, ?_⟩
  have := congrArg List.length (by simpa using h.1 :
    (runLog calls).events.reverse = (((calls.map mkEvent).filter isSurface).reverse).take 200)
  simpa using le_trans (le_of_eq this) (List.length_take_le _ _)

set_option maxHeartbeats 1000000 in
/-- C6.  The biome function follows the ordered decision ladder of the
specification exactly: each guard applies only when the earlier guards
failed, with the stated thresholds and tie-breaks. -/
theorem claim_C6_biome_ladder (e t r : ℚ) :
    (e ≤ 0 → determineBiome e t r = "ocean") ∧
    (0 < e → t < -0.5 → determineBiome e t r = "ice") ∧
    (0 < e → -0.5 ≤ t → t < -0.2 → determineBiome e t r = "tundra") ∧
    (0 < e → -0.2 ≤ t → 0.7 < e → determineBiome e t r = "alpine") ∧
    (0 < e → -0.2 ≤ t → e ≤ 0.7 → r < 0.2 → determineBiome e t r = "desert") ∧
    (0 < e → -0.2 ≤ t → e ≤ 0.7 → 0.2 ≤ r → r < 0.4 →
      determineBiome e t r = (if 0.3 < t then "savanna" else "grassland")) ∧
    (0 < e → -0.2 ≤ t → e ≤ 0.7 → 0.4 ≤ r → r < 0.7 →
      determineBiome e t r = (if 0.4 < t then "jungle" else "forest")) ∧
    (0 < e → -0.2 ≤ t → e ≤ 0.7 → 0.7 ≤ r →
      determineBiome e t r = (if 0.5 < t then "jungle" else "forest")) := by
  unfold determineBiome
  refine ⟨?_, ?_, ?_, ?_, ?_, ?_, ?_, ?_⟩ <;> intros <;>
    split_ifs <;> first | rfl | (exfalso; linarith)

/-- C6 witness: the ladder theorem applied at concrete triples hitting the
first and the desert branches. -/
theorem claim_C6_biome_ladder_witness :
    determineBiome (-1) 0 0 = "ocean" ∧ determineBiome (1/2) 0 (1/10) = "desert" := by
  refine ⟨(claim_C6_biome_ladder (-1) 0 0).1 (by norm_num), ?_⟩
  exact (claim_C6_biome_ladder (1/2) 0 (1/10)).2.2.2.2.1 (by norm_num) (by norm_num)
    (by norm_num) (by norm_num)

/-- C8.  Battle resolution is a function of the attacker advantage and one
roll: attacker wins iff roll < 0.6 times advantage; defender wins iff the
attacker condition fails and roll > 0.7; otherwise stalemate. -/
theorem claim_C8_battle_resolution (adv roll : ℚ) :
    (resolveBattle adv roll = "attacker" ↔ roll < 0.6 * adv) ∧
    (resolveBattle adv roll = "defender" ↔ 0.6 * adv ≤ roll ∧ 0.7 < roll) ∧
    (resolveBattle adv roll = "stalemate" ↔ 0.6 * adv ≤ roll ∧ roll ≤ 0.7) := by
  unfold resolveBattle
  have hc : adv * 0.6 = 0.6 * adv := mul_comm _ _
  rw [hc]
  split_ifs with h1 h2 <;>
    refine ⟨⟨fun hh => ?_, fun hh => ?_⟩, ⟨fun hh => ?_, fun hh => ?_⟩,
      ⟨fun hh => ?_, fun hh => ?_⟩⟩ <;>
    first
      | rfl
      | linarith
      | (exact absurd hh (by decide))
      | (push_neg at h1; exact ⟨h1, h2⟩)
      | (push_neg at h1 h2; exact ⟨h1, h2⟩)

/-- C10.  setSpeed clamps every argument into [0, 4]; for every integral
argument the clamped speed is a valid index into the five-entry
tick-interval table, so shouldTick never reads out of bounds. -/
theorem claim_C10_speed_clamped (s : ℚ) :
    (0 ≤ setSpeed s ∧ setSpeed s ≤ 4) ∧
      (s.den = 1 → (tickIntervals.get? (setSpeed s).num.toNat).isSome = true) := by
  constructor
  · exact ⟨le_max_left _ _, max_le (by norm_num) (min_le_left _ _)⟩
  · intro hden
    have hint : s = (s.num : ℚ) := by
      conv_lhs => rw [← Rat.num_div_den s]
      rw [hden]; simp
    have hcast : setSpeed s = ((max 0 (min 4 s.num) : ℤ) : ℚ) := by
      rw [setSpeed, hint]
      push_cast
      rfl
    have hnum : (setSpeed s).num = max 0 (min 4 s.num) := by
      rw [hcast, Rat.num_intCast]
    have hub : (setSpeed s).num ≤ 4 := by
      rw [hnum]
      exact max_le (by norm_num) (le_trans (min_le_left _ _) (by norm_num))
    have hlb : 0 ≤ (setSpeed s).num := by rw [hnum]; exact le_max_left _ _
    have hlt : (setSpeed s).num.toNat < tickIntervals.length := by
      have : (setSpeed s).num.toNat ≤ 4 := by omega
      simpa [tickIntervals] using Nat.lt_succ_of_le this
    have hne : tickIntervals.get? (setSpeed s).num.toNat ≠ none := by
      rw [Ne, List.get?_eq_none]
      omega
    exact Option.isSome_iff_ne_none.mpr hne

/-- C10 witness: an out-of-range call, setSpeed 99, is clamped to 4 and
indexes the table successfully. -/
theorem claim_C10_speed_clamped_witness :
    (0 ≤ setSpeed 99 ∧ setSpeed 99 ≤ 4) ∧
      (tickIntervals.get? (setSpeed 99).num.toNat).isSome = true :=
  ⟨(claim_C10_speed_clamped 99).1, (claim_C10_speed_clamped 99).2 (by decide)⟩

/-! ## War system (src/war.js)

The pseudo-random stream (utils.js SeededRNG) is passed as an explicit
stream of next() outputs together with a cursor, so that every consumption
point of the source is visible.  rng.range(a,b) is a + u * (b - a) and
rng.int(a,b) is floor(range(a, b + 1)) for the next stream value u, exactly
as in utils.js. -/

abbrev RngStream := ℕ → ℚ

/-- A war party as read and mutated by War.tick: the fields of a country
object that the war system touches. -/
structure WarEntity where
  name : String
  population : ℤ
  techLevel : ℚ
  unrest : ℚ
  aggression : ℚ
  caution : ℚ
  territories : List (ℤ × ℤ)
  atWar : Bool
deriving DecidableEq, Repr

/-- The War object of src/war.js (constructor, lines 5-16). -/
structure WarState where
  attacker : WarEntity
  defender : WarEntity
  startYear : ℤ
  currentYear : ℤ
  attackerExhaustion : ℚ
  defenderExhaustion : ℚ
  attackerLosses : ℤ
  defenderLosses : ℤ
deriving DecidableEq, Repr

/-- War.calculateStrength (lines 69-92): population, tech multiplier,
morale, defender bonus, leader-trait multiplier, clamped to at least 1. -/
def calculateStrength (e : WarEntity) (isDefender : Bool) : ℚ :=
  let s1 : ℚ := (e.population : ℚ) * (1 + e.techLevel * 0.1)
  let s2 : ℚ := s1 * (1 - e.unrest / 100)
  let s3 : ℚ := if isDefender then s2 * 1.2 else s2
  let s4 : ℚ := if isDefender then s3 * (1 + e.caution * 0.2)
                else s3 * (1 + e.aggression * 0.2)
  max 1 s4

/-- War.conquerTerritory (lines 106-134): defender tiles 8-adjacent to an
attacker tile (x wrapping), then with probability 0.3 transfer one chosen
by rng.int(0, targets.length - 1). -/
def conquerTerritory (w : WarState) (width : ℤ) (s : RngStream) (i : ℕ) :
    WarState × ℕ :=
  let targets := w.defender.territories.filter (fun d =>
    w.attacker.territories.any (fun a =>
      decide (min |d.1 - a.1| (width - |d.1 - a.1|) ≤ 1 ∧ |d.2 - a.2| ≤ 1)))
  if targets = [] then (w, i)
  else if s i < 0.3 then
    let k : ℤ := ⌊(0 : ℚ) + s (i + 1) * (((targets.length : ℤ) - 1 : ℤ) + 1 : ℚ)⌋
    let target := targets.getD k.toNat (0, 0)
    let idx := w.defender.territories.findIdx (fun t => t = target)
    if idx < w.defender.territories.length then
      ({ w with
          defender := { w.defender with
            territories := w.defender.territories.eraseIdx idx }
          attacker := { w.attacker with
            territories := w.attacker.territories ++ [target] } }, i + 2)
    else (w, i + 2)
  else (w, i + 1)

/-- The peace-terms loop of War.endWar (lines 152-158): pop up to n tiles
off the end of the defender list and push them onto the attacker list. -/
def annexLoop : ℕ → List (ℤ × ℤ) → List (ℤ × ℤ) → List (ℤ × ℤ) × List (ℤ × ℤ)
  | 0, dts, ats => (dts, ats)
  | n + 1, dts, ats =>
    match dts.getLast? with
    | none => (dts, ats)
    | some t => annexLoop n dts.dropLast (ats ++ [t])

/-- War.endWar (lines 136-165): default outcome by exhaustion comparison,
annexation of min(3, floor(0.3 · defender tiles)) tiles on attacker
victory, atWar flags reset.  Returns the updated war and the outcome
string. -/
def endWar (w : WarState) (outcome : Option String) : WarState × String :=
  let oc := outcome.getD
    (if w.defenderExhaustion < w.attackerExhaustion then "defender_victory"
     else "attacker_victory")
  let w1 :=
    if oc = "attacker_victory" then
      let annexCount := min 3 (w.defender.territories.length * 3 / 10)
      let (dts, ats) := annexLoop annexCount w.defender.territories w.attacker.territories
      { w with defender := { w.defender with territories := dts }
               attacker := { w.attacker with territories := ats } }
    else w
  ({ w1 with attacker := { w1.attacker with atWar := false }
             defender := { w1.defender with atWar := false } }, oc)

/-- War.tick up to the end-condition checks (lines 18-50): battle
resolution, casualties, possible conquest, exhaustion accumulation.
Returns the war state as it stands at line 51 and the stream cursor. -/
def warTickMid (w : WarState) (width year : ℤ) (s : RngStream) (i : ℕ) :
    WarState × ℕ :=
  let aS := calculateStrength w.attacker false
  let dS := calculateStrength w.defender true
  let adv := aS / (aS + dS)
  let battle := resolveBattle adv (s i)
  let aCas := ⌊(w.attacker.population : ℚ) * (0.001 + s (i + 1) * (0.005 - 0.001))⌋
  let dCas := ⌊(w.defender.population : ℚ) * (0.001 + s (i + 2) * (0.005 - 0.001))⌋
  let w1 : WarState :=
    { w with
        currentYear := year
        attacker := { w.attacker with population := w.attacker.population - aCas }
        defender := { w.defender with population := w.defender.population - dCas }
        attackerLosses := w.attackerLosses + aCas
        defenderLosses := w.defenderLosses + dCas }
  let (w2, i2) := if battle = "attacker" then conquerTerritory w1 width s (i + 3)
                  else (w1, i + 3)
  ({ w2 with attackerExhaustion := w.attackerExhaustion + 0.05
             defenderExhaustion := w.defenderExhaustion + 0.03 }, i2)

/-- War.tick (lines 18-67): the mid-tick state followed by the
end-condition checks exactly in source order: exhaustion above 1.0 first,
then defender collapse, then attacker withdrawal. -/
def warTick (w : WarState) (width year : ℤ) (s : RngStream) (i : ℕ) :
    WarState × Option String × ℕ :=
  let m := warTickMid w width year s i
  if 1 < m.1.attackerExhaustion ∨ 1 < m.1.defenderExhaustion then
    let e := endWar m.1 none
    (e.1, some e.2, m.2)
  else if m.1.defender.population < 100 ∨ m.1.defender.territories.length < 2 then
    let e := endWar m.1 (some "attacker_victory")
    (e.1, some e.2, m.2)
  else if m.1.attacker.population < 200 then
    let e := endWar m.1 (some "defender_victory")
    (e.1, some e.2, m.2)
  else (m.1, none, m.2)

/-- Iterated war ticks as driven by WarManager.tick: once the war has
ended it is removed from the active list, so an ended outcome persists. -/
def warRun (w : WarState) (width year : ℤ) (s : RngStream) (i : ℕ) :
    ℕ → WarState × Option String × ℕ
  | 0 => (w, none, i)
  | n + 1 =>
    let r := warRun w width year s i n
    match r.2.1 with
    | some o => (r.1, some o, r.2.2)
    | none => warTick r.1 width (year + (n : ℤ) + 1) s r.2.2

/-! ## Lemmas about war ticks -/

theorem warTickMid_attExh (w : WarState) (width year : ℤ) (s : RngStream) (i : ℕ) :
    (warTickMid w width year s i).1.attackerExhaustion = w.attackerExhaustion + 0.05 := by
  unfold warTickMid
  dsimp only

theorem warTickMid_defExh (w : WarState) (width year : ℤ) (s : RngStream) (i : ℕ) :
    (warTickMid w width year s i).1.defenderExhaustion = w.defenderExhaustion + 0.03 := by
  unfold warTickMid
  dsimp only

theorem endWar_attExh (w : WarState) (oc : Option String) :
    (endWar w oc).1.attackerExhaustion = w.attackerExhaustion := by
  unfold endWar
  dsimp only
  split_ifs <;> rfl

theorem endWar_defExh (w : WarState) (oc : Option String) :
    (endWar w oc).1.defenderExhaustion = w.defenderExhaustion := by
  unfold endWar
  dsimp only
  split_ifs <;> rfl

theorem warTick_attExh (w : WarState) (width year : ℤ) (s : RngStream) (i : ℕ) :
    (warTick w width year s i).1.attackerExhaustion = w.attackerExhaustion + 0.05 := by
  unfold warTick
  dsimp only
  split_ifs <;> simp [endWar_attExh, warTickMid_attExh]

theorem warTick_defExh (w : WarState) (width year : ℤ) (s : RngStream) (i : ℕ) :
    (warTick w width year s i).1.defenderExhaustion = w.defenderExhaustion + 0.03 := by
  unfold warTick
  dsimp only
  split_ifs <;> simp [endWar_defExh, warTickMid_defExh]

theorem warTick_none_attExh_le (w : WarState) (width year : ℤ) (s : RngStream) (i : ℕ)
    (h : (warTick w width year s i).2.1 = none) :
    (warTick w width year s i).1.attackerExhaustion ≤ 1 := by
  by_cases h1 : 1 < (warTickMid w width year s i).1.attackerExhaustion ∨
      1 < (warTickMid w width year s i).1.defenderExhaustion
  · exfalso
    unfold warTick at h
    dsimp only at h
    rw [if_pos h1] at h
    simp at h
  · push_neg at h1
    rw [warTick_attExh, ← warTickMid_attExh w width year s i]
    exact h1.1

theorem warRun_pred_none (w : WarState) (width year : ℤ) (s : RngStream) (i : ℕ) (n : ℕ)
    (h : (warRun w width year s i (n + 1)).2.1 = none) :
    (warRun w width year s i n).2.1 = none := by
  unfold warRun at h
  dsimp only at h
  cases hoc : (warRun w width year s i n).2.1 with
  | none => rfl
  | some o => rw [hoc] at h; simp at h

theorem warRun_succ_of_none (w : WarState) (width year : ℤ) (s : RngStream) (i : ℕ) (n : ℕ)
    (h : (warRun w width year s i n).2.1 = none) :
    warRun w width year s i (n + 1) =
      warTick (warRun w width year s i n).1 width (year + (n : ℤ) + 1) s
        (warRun w width year s i n).2.2 := by
  conv_lhs => unfold warRun
  dsimp only
  rw [h]

theorem warRun_none_attExh (w : WarState) (width year : ℤ) (s : RngStream) (i : ℕ) :
    ∀ n, (warRun w width year s i n).2.1 = none →
      (warRun w width year s i n).1.attackerExhaustion =
        w.attackerExhaustion + n * 0.05
  | 0, _ => by simp [warRun]
  | n + 1, h => by
    have hp := warRun_pred_none w width year s i n h
    rw [warRun_succ_of_none w width year s i n hp, warTick_attExh,
      warRun_none_attExh w width year s i n hp]
    push_cast
    ring

/-- C4.  Every war tick adds exactly 0.05 to attacker exhaustion and 0.03
to defender exhaustion, exhaustion is never decreased, the war ends as soon
as either exhaustion exceeds 1.0, and a war started at exhaustion 0 ends
within at most 34 ticks for every stream of battle outcomes. -/
theorem claim_C4_war_termination (w : WarState) (width year : ℤ) (s : RngStream) (i : ℕ) :
    ((warTick w width year s i).1.attackerExhaustion = w.attackerExhaustion + 0.05 ∧
      (warTick w width year s i).1.defenderExhaustion = w.defenderExhaustion + 0.03) ∧
    ((1 < w.attackerExhaustion + 0.05 ∨ 1 < w.defenderExhaustion + 0.03) →
      (warTick w width year s i).2.1 ≠ none) ∧
    (w.attackerExhaustion = 0 →
      ∃ k, k ≤ 34 ∧ (warRun w width year s i k).2.1 ≠ none) := by
  refine ⟨⟨warTick_attExh w width year s i, warTick_defExh w width year s i⟩, ?_, ?_⟩
  · intro h
    have hg : 1 < (warTickMid w width year s i).1.attackerExhaustion ∨
        1 < (warTickMid w width year s i).1.defenderExhaustion := by
      rw [warTickMid_attExh, warTickMid_defExh]; exact h
    unfold warTick
    dsimp only
    rw [if_pos hg]
    simp
  · intro h0
    refine ⟨21, by norm_num, fun hnone => ?_⟩
    have hp20 := warRun_pred_none w width year s i 20 hnone
    have hexh := warRun_none_attExh w width year s i 21 hnone
    rw [h0] at hexh
    have hle : (warRun w width year s i 21).1.attackerExhaustion ≤ 1 := by
      rw [warRun_succ_of_none w width year s i 20 hp20] at hnone ⊢
      exact warTick_none_attExh_le _ _ _ _ _ hnone
    rw [hexh] at hle
    norm_num at hle

/-- An all-constant stream standing in for rng.next() outputs. -/
def constStream (q : ℚ) : RngStream := fun _ => q

/-- Concrete attacker for the C4 witness: a fresh war at exhaustion 0. -/
def warAtRest : WarState :=
  { attacker := { name := "A", population := 1000, techLevel := 0, unrest := 0,
                  aggression := 0, caution := 0, territories := [(0, 0)], atWar := true }
    defender := { name := "B", population := 1000, techLevel := 0, unrest := 0,
                  aggression := 0, caution := 0, territories := [(3, 3), (4, 4)], atWar := true }
    startYear := 0, currentYear := 0
    attackerExhaustion := 0, defenderExhaustion := 0
    attackerLosses := 0, defenderLosses := 0 }

/-- C4 witness: the bound applied to a concrete fresh war. -/
theorem claim_C4_war_termination_witness :
    ∃ k, k ≤ 34 ∧ (warRun warAtRest 100 0 (constStream 0) 0 k).2.1 ≠ none :=
  (claim_C4_war_termination warAtRest 100 0 (constStream 0) 0).2.2 rfl

/-! ## C3: order of the war-end checks -/

/-- A war one tick away from attacker exhaustion whose defender is already
below the population threshold. -/
def warNearExhaustion : WarState :=
  { attacker := { name := "A", population := 300, techLevel := 0, unrest := 0,
                  aggression := 0, caution := 0, territories := [(0, 0)], atWar := true }
    defender := { name := "B", population := 50, techLevel := 0, unrest := 0,
                  aggression := 0, caution := 0, territories := [(5, 5), (7, 7)], atWar := true }
    startYear := 0, currentYear := 0
    attackerExhaustion := 0.98, defenderExhaustion := 0
    attackerLosses := 0, defenderLosses := 0 }

/-- C3 counterexample: in this tick the defender population at check time
is 50 < 100 and its territory count is 2, so by the claimed check order the
attacker must win; the code checks exhaustion first and ends the war as a
defender victory. -/
theorem claim_C3_counterexample :
    (warTickMid warNearExhaustion 100 10 (constStream (13/20)) 0).1.defender.population < 100 ∧
    (warTickMid warNearExhaustion 100 10 (constStream (13/20)) 0).1.defender.territories.length = 2 ∧
    (warTick warNearExhaustion 100 10 (constStream (13/20)) 0).2.1 = some "defender_victory" := by
  refine ⟨?_, ?_, ?_⟩ <;>
    norm_num [warTick, warTickMid, endWar, conquerTerritory, calculateStrength,
      resolveBattle, warNearExhaustion, constStream]

/-- C3 amended.  The war-end conditions are checked in source order:
exhaustion above 1.0 first (winner the side with the strictly lower
exhaustion, attacker on ties), then defender collapse (population < 100 or
fewer than 2 territories, attacker victory), then attacker withdrawal
(population < 200, defender victory); all conditions are evaluated on the
mid-tick state after casualties, conquest and exhaustion accumulation. -/
theorem claim_C3_check_order (w : WarState) (width year : ℤ) (s : RngStream) (i : ℕ) :
    ((1 < (warTickMid w width year s i).1.attackerExhaustion ∨
        1 < (warTickMid w width year s i).1.defenderExhaustion) →
      (warTick w width year s i).2.1 = some
        (if (warTickMid w width year s i).1.defenderExhaustion <
            (warTickMid w width year s i).1.attackerExhaustion
          then "defender_victory" else "attacker_victory")) ∧
    (¬ (1 < (warTickMid w width year s i).1.attackerExhaustion ∨
        1 < (warTickMid w width year s i).1.defenderExhaustion) →
      ((warTickMid w width year s i).1.defender.population < 100 ∨
        (warTickMid w width year s i).1.defender.territories.length < 2) →
      (warTick w width year s i).2.1 = some "attacker_victory") ∧
    (¬ (1 < (warTickMid w width year s i).1.attackerExhaustion ∨
        1 < (warTickMid w width year s i).1.defenderExhaustion) →
      ¬ ((warTickMid w width year s i).1.defender.population < 100 ∨
        (warTickMid w width year s i).1.defender.territories.length < 2) →
      (warTickMid w width year s i).1.attacker.population < 200 →
      (warTick w width year s i).2.1 = some "defender_victory") ∧
    (¬ (1 < (warTickMid w width year s i).1.attackerExhaustion ∨
        1 < (warTickMid w width year s i).1.defenderExhaustion) →
      ¬ ((warTickMid w width year s i).1.defender.population < 100 ∨
        (warTickMid w width year s i).1.defender.territories.length < 2) →
      ¬ (warTickMid w width year s i).1.attacker.population < 200 →
      warTick w width year s i =
        ((warTickMid w width year s i).1, none, (warTickMid w width year s i).2)) := by
  refine ⟨?_, ?_, ?_, ?_⟩
  · intro hg
    unfold warTick
    dsimp only
    rw [if_pos hg]
    simp [endWar]
  · intro hg hd
    unfold warTick
    dsimp only
    rw [if_neg hg, if_pos hd]
    simp [endWar]
  · intro hg hd ha
    unfold warTick
    dsimp only
    rw [if_neg hg, if_neg hd, if_pos ha]
    simp [endWar]
  · intro hg hd ha
    unfold warTick
    dsimp only
    rw [if_neg hg, if_neg hd, if_neg ha]

/-- A war already far past attacker exhaustion, for the C3 witness. -/
def warPastExhaustion : WarState :=
  { attacker := { name := "A", population := 1000, techLevel := 0, unrest := 0,
                  aggression := 0, caution := 0, territories := [(0, 0)], atWar := true }
    defender := { name := "B", population := 1000, techLevel := 0, unrest := 0,
                  aggression := 0, caution := 0, territories := [(3, 3), (4, 4)], atWar := true }
    startYear := 0, currentYear := 0
    attackerExhaustion := 2, defenderExhaustion := 0
    attackerLosses := 0, defenderLosses := 0 }

/-- C3 witness: the exhaustion branch of the check-order theorem fires on a
concrete war past exhaustion. -/
theorem claim_C3_check_order_witness :
    (warTick warPastExhaustion 100 1 (constStream 0) 0).2.1 = some
      (if (warTickMid warPastExhaustion 100 1 (constStream 0) 0).1.defenderExhaustion <
          (warTickMid warPastExhaustion 100 1 (constStream 0) 0).1.attackerExhaustion
        then "defender_victory" else "attacker_victory") :=
  (claim_C3_check_order warPastExhaustion 100 1 (constStream 0) 0).1
    (Or.inl (by rw [warTickMid_attExh]; norm_num [warPastExhaustion]))

/-! ## C1: wall-clock dependence of serialized state

EventSystem.logEvent stores timestamp: Date.now() in every event record
(src/events.js line 16), and CountryAI.buildCity builds the city id as the
template string city_Date.now()_rng.next() (src/ai.js line 184).  Both are
modelled with the wall-clock reading as the explicit parameter now. -/

/-- The id string built by CountryAI.buildCity for a new city. -/
def cityId (now : ℤ) (u : ℚ) : String :=
  "city_" ++ toString now ++ "_" ++ toString u

/-- C1.  Two logEvent calls and two buildCity id computations that agree on
every input except the wall-clock reading produce different serialized
values, so the observable state is not a function of seed and tick count
alone. -/
theorem claim_C1_wallclock_dependence :
    EventSystem.empty.logEvent 5 "war" none "surface" 0 ≠
      EventSystem.empty.logEvent 5 "war" none "surface" 1 ∧
    cityId 0 (1/2) ≠ cityId 1 (1/2) := by
  constructor
  · intro h
    have h2 := congrArg (fun es => (es.events.map SimEvent.timestamp)) h
    simp [EventSystem.logEvent, EventSystem.empty, maxVisibleEvents] at h2
  · decide

/-! ## C2: tile ownership under Tribe.migrate (src/Entities.js lines 58-75)

Tribe.migrate moves the tribe to a habitable 4-neighbor of its first
territory; the source checks world.isHabitable only and never checks
whether another tribe or country owns the destination tile. -/

/-- wrapX of utils.js: add or subtract width until the value is in
[0, width); for positive width this is the mathematical remainder. -/
def wrapX (x width : ℤ) : ℤ := x % width

/-- clampY of utils.js. -/
def clampY (y height : ℤ) : ℤ := max 0 (min (height - 1) y)

/-- The world view used by the entity code: dimensions plus the
isHabitable predicate of src/World.js lines 279-284. -/
structure WorldView where
  width : ℤ
  height : ℤ
  habitable : ℤ → ℤ → Bool

/-- The fields of an Entities.js Tribe that migrate reads and writes. -/
structure EntTribe where
  id : ℕ
  population : ℤ
  territories : List (ℤ × ℤ)
  x : ℤ
  y : ℤ
deriving DecidableEq, Repr

/-- Tribe.migrate: candidate 4-neighbors of territories[0], keep the
habitable ones, pick one by rng.int(0, length - 1), and replace the
whole territory list by the chosen tile. -/
def tribeMigrate (w : WorldView) (t : EntTribe) (s : RngStream) (i : ℕ) :
    EntTribe × ℕ :=
  let current := t.territories.headD (0, 0)
  let neighbors : List (ℤ × ℤ) :=
    [(wrapX (current.1 + 1) w.width, current.2),
     (wrapX (current.1 - 1) w.width, current.2),
     (current.1, clampY (current.2 + 1) w.height),
     (current.1, clampY (current.2 - 1) w.height)]
  let valid := neighbors.filter (fun n => w.habitable n.1 n.2)
  if valid = [] then (t, i)
  else
    let k : ℤ := ⌊s i * (valid.length : ℚ)⌋
    let newPos := valid.getD k.toNat (0, 0)
    ({ t with territories := [newPos], x := newPos.1, y := newPos.2 }, i + 1)

/-- A small all-habitable world. -/
def flatWorld : WorldView :=
  { width := 10, height := 10, habitable := fun _ _ => true }

/-- Two settled tribes on adjacent tiles with disjoint territories. -/
def tribeWest : EntTribe :=
  { id := 1, population := 100, territories := [(0, 0)], x := 0, y := 0 }

def tribeEast : EntTribe :=
  { id := 2, population := 100, territories := [(1, 0)], x := 1, y := 0 }

/-- C2.  Tribe.migrate violates ownership disjointness: starting from two
tribes with disjoint territories, one migrate step moves the western tribe
onto the eastern tribe's tile, leaving the tile owned by both.  The source
filters candidates only by world.isHabitable and never consults other
tribes' or countries' territories. -/
theorem claim_C2_migrate_overlap :
    (∀ p ∈ tribeWest.territories, p ∉ tribeEast.territories) ∧
    ((1 : ℤ), (0 : ℤ)) ∈ (tribeMigrate flatWorld tribeWest (constStream 0) 0).1.territories ∧
    ((1 : ℤ), (0 : ℤ)) ∈ tribeEast.territories := by
  refine ⟨by decide, ?_, by decide⟩
  norm_num [tribeMigrate, flatWorld, tribeWest, constStream, wrapX, clampY]
  simp

/-! ## C5: Simulation.initialize (src/Simulation.js lines 34-56)

rng.range(a,b) = a + u (b - a) and rng.int(a,b) = floor(range(a, b+1)) for
the next stream value u, as defined by utils.js SeededRNG. -/

def rngRange (u a b : ℚ) : ℚ := a + u * (b - a)

def rngIntU (u : ℚ) (a b : ℤ) : ℤ := ⌊rngRange u (a : ℚ) ((b : ℚ) + 1)⌋

/-- The serialized fields of a spawned tribe that C5 talks about; the id
comes from generateID, a global monotone counter with prefix tribe. -/
structure SpawnedTribe where
  id : String
  x : ℤ
  y : ℤ
  population : ℤ
deriving DecidableEq, Repr

/-- The do-while rejection loop of initialize: draw x = int(0, width-1),
y = int(0, height-1), count the attempt, stop on a habitable tile or once
attempts reaches 100.  Fuel bounds the recursion; callers pass fuel = 100
so that the guard attempts < 100 always stops the loop first. -/
def placeLoop (w : WorldView) (s : RngStream) : ℕ → ℕ → ℕ → (ℤ × ℤ) × ℕ × ℕ
  | 0, i, attempts => ((0, 0), i, attempts)
  | fuel + 1, i, attempts =>
    let x := rngIntU (s i) 0 (w.width - 1)
    let y := rngIntU (s (i + 1)) 0 (w.height - 1)
    let a2 := attempts + 1
    if w.habitable x y ∨ 100 ≤ a2 then ((x, y), i + 2, a2)
    else placeLoop w s fuel (i + 2) a2

/-- The spawn loop of initialize: for each of the n requested tribes run
the rejection loop; when it used fewer than 100 attempts, draw the hsl
color (3 ints), then the Tribe constructor draws the name (2 nexts) and
the population int(50,150), and generateID hands out the next counter
value. -/
def initTribes (w : WorldView) (s : RngStream) : ℕ → ℕ → ℕ → List SpawnedTribe
  | 0, _, _ => []
  | n + 1, i, counter =>
    let p := placeLoop w s 100 i 0
    if p.2.2 < 100 then
      { id := "tribe_" ++ toString (counter + 1), x := p.1.1, y := p.1.2,
        population := rngIntU (s (p.2.1 + 5)) 50 150 } ::
        initTribes w s n (p.2.1 + 6) (counter + 1)
    else initTribes w s n p.2.1 counter

/-- Simulation.initialize: numTribes = rng.int(10, 16) followed by the
spawn loop. -/
def simInitialize (w : WorldView) (s : RngStream) : List SpawnedTribe :=
  initTribes w s (rngIntU (s 0) 10 16).toNat 1 0

theorem placeLoop_habitable (w : WorldView) (s : RngStream) :
    ∀ (fuel i attempts : ℕ), 100 ≤ fuel + attempts →
      (placeLoop w s fuel i attempts).2.2 < 100 →
      w.habitable (placeLoop w s fuel i attempts).1.1
        (placeLoop w s fuel i attempts).1.2 = true
  | 0, i, attempts, hfa, hlt => by
    simp only [placeLoop] at hlt
    omega
  | fuel + 1, i, attempts, hfa, hlt => by
    simp only [placeLoop] at hlt ⊢
    split at hlt
    next hg =>
      rw [if_pos hg]
      dsimp only at hlt ⊢
      rcases hg with hg | hg
      · exact hg
      · exfalso; omega
    next hg =>
      rw [if_neg hg]
      exact placeLoop_habitable w s fuel (i + 2) (attempts + 1) (by omega) hlt

theorem initTribes_length_le (w : WorldView) (s : RngStream) :
    ∀ (n i counter : ℕ), (initTribes w s n i counter).length ≤ n
  | 0, _, _ => by simp [initTribes]
  | n + 1, i, counter => by
    simp only [initTribes]
    split
    · simpa using Nat.succ_le_succ (initTribes_length_le w s n _ _)
    · exact le_trans (initTribes_length_le w s n _ _) (by omega)

theorem initTribes_habitable (w : WorldView) (s : RngStream) :
    ∀ (n i counter : ℕ), ∀ t ∈ initTribes w s n i counter,
      w.habitable t.x t.y = true
  | 0, _, _ => by simp [initTribes]
  | n + 1, i, counter => by
    intro t ht
    simp only [initTribes] at ht
    split at ht
    next hlt =>
      rcases List.mem_cons.mp ht with hh | hh
      · subst hh
        exact placeLoop_habitable w s 100 i 0 (by omega) hlt
      · exact initTribes_habitable w s n _ _ t hh
    next => exact initTribes_habitable w s n _ _ t ht

theorem initTribes_ids (w : WorldView) (s : RngStream) :
    ∀ (n i counter : ℕ),
      (initTribes w s n i counter).map SpawnedTribe.id =
        (List.range' (counter + 1) (initTribes w s n i counter).length).map
          (fun k => "tribe_" ++ toString k)
  | 0, _, _ => by simp [initTribes]
  | n + 1, i, counter => by
    simp only [initTribes]
    split
    · simp only [List.map_cons, List.length_cons, List.range'_succ, List.map]
      exact congrArg _ (initTribes_ids w s n _ (counter + 1))
    · exact initTribes_ids w s n _ counter

/-- C5 amended.  initialize draws the requested tribe count as int(10,16),
which always lies in [10,16]; it spawns at most that many tribes (a
placement that fails to find a habitable tile inside its 100-attempt
budget spawns nothing, so the final count can fall below 10); every
spawned tribe sits on a habitable tile; and the tribe ids are the
consecutive strings tribe_1, tribe_2, ... in spawn order. -/
theorem claim_C5_initialization (w : WorldView) (s : RngStream)
    (h0 : 0 ≤ s 0) (h1 : s 0 < 1) :
    (10 ≤ rngIntU (s 0) 10 16 ∧ rngIntU (s 0) 10 16 ≤ 16) ∧
    (simInitialize w s).length ≤ (rngIntU (s 0) 10 16).toNat ∧
    (simInitialize w s).length ≤ 16 ∧
    (∀ t ∈ simInitialize w s, w.habitable t.x t.y = true) ∧
    (simInitialize w s).map SpawnedTribe.id =
      (List.range' 1 (simInitialize w s).length).map
        (fun k => "tribe_" ++ toString k) := by
  have hlb : 10 ≤ rngIntU (s 0) 10 16 := by
    rw [rngIntU, Int.le_floor]
    rw [rngRange]
    push_cast
    nlinarith
  have hub : rngIntU (s 0) 10 16 ≤ 16 := by
    have : rngIntU (s 0) 10 16 < 17 := by
      rw [rngIntU, Int.floor_lt]
      rw [rngRange]
      push_cast
      nlinarith
    omega
  refine ⟨⟨hlb, hub⟩, initTribes_length_le w s _ _ _, ?_, ?_, ?_⟩
  · exact le_trans (initTribes_length_le w s _ _ _) (by omega)
  · exact initTribes_habitable w s _ _ _
  · exact initTribes_ids w s _ 1 0

/-- C5 witness: the amended theorem applied to the all-habitable world and
the all-zero stream. -/
theorem claim_C5_initialization_witness :
    (10 ≤ rngIntU (constStream 0 0) 10 16 ∧ rngIntU (constStream 0 0) 10 16 ≤ 16) ∧
    (simInitialize flatWorld (constStream 0)).length ≤
      (rngIntU (constStream 0 0) 10 16).toNat ∧
    (simInitialize flatWorld (constStream 0)).length ≤ 16 ∧
    (∀ t ∈ simInitialize flatWorld (constStream 0),
      flatWorld.habitable t.x t.y = true) ∧
    (simInitialize flatWorld (constStream 0)).map SpawnedTribe.id =
      (List.range' 1 (simInitialize flatWorld (constStream 0)).length).map
        (fun k => "tribe_" ++ toString k) :=
  claim_C5_initialization flatWorld (constStream 0) (by norm_num [constStream])
    (by norm_num [constStream])

/-- A world whose only habitable tile is (1,1), which the all-zero stream
never draws. -/
def oneTileWorld : WorldView :=
  { width := 2048, height := 1024, habitable := fun x y => decide (x = 1 ∧ y = 1) }

theorem placeLoop_oneTile_fails :
    ∀ (fuel i attempts : ℕ), 100 ≤ fuel + attempts →
      ¬ (placeLoop oneTileWorld (constStream 0) fuel i attempts).2.2 < 100
  | 0, i, attempts, hfa => by
    simp only [placeLoop]
    omega
  | fuel + 1, i, attempts, hfa => by
    have hx : rngIntU (constStream 0 i) 0 (oneTileWorld.width - 1) = 0 := by
      norm_num [rngIntU, rngRange, constStream, oneTileWorld]
    have hy : rngIntU (constStream 0 (i + 1)) 0 (oneTileWorld.height - 1) = 0 := by
      norm_num [rngIntU, rngRange, constStream, oneTileWorld]
    simp only [placeLoop, hx, hy]
    have hh : oneTileWorld.habitable 0 0 = false := by decide
    rw [hh]
    by_cases ha : 100 ≤ attempts + 1
    · rw [if_pos (Or.inr ha)]
      simpa using ha
    · rw [if_neg (by simpa using ha)]
      exact placeLoop_oneTile_fails fuel (i + 2) (attempts + 1) (by omega)

theorem initTribes_oneTile_empty :
    ∀ (n i counter : ℕ), initTribes oneTileWorld (constStream 0) n i counter = []
  | 0, _, _ => rfl
  | n + 1, i, counter => by
    simp only [initTribes]
    rw [if_neg (placeLoop_oneTile_fails 100 i 0 (by omega))]
    exact initTribes_oneTile_empty n _ counter

/-- C5 counterexample: a world that does contain a habitable tile on which
initialize spawns no tribe at all, because every rejection-sampling draw of
the all-zero stream lands on the uninhabitable (0,0); the claimed lower
bound of 10 tribes fails. -/
theorem claim_C5_counterexample :
    oneTileWorld.habitable 1 1 = true ∧
    (simInitialize oneTileWorld (constStream 0)).length = 0 ∧
    ¬ 10 ≤ (simInitialize oneTileWorld (constStream 0)).length := by
  have hempty : simInitialize oneTileWorld (constStream 0) = [] := by
    rw [simInitialize]
    exact initTribes_oneTile_empty _ 1 0
  refine ⟨by decide, ?_, ?_⟩ <;> simp [hempty]

/-! ## C7: migrateTribe of the prototype (src/unnamed/part_001 lines 898-980)

TILE_WIDTH = 256 and TILE_HEIGHT = 128; tiles are accessed through
getTileAt, modelled as a function from coordinates to tile records. -/

/-- The tile fields read by migrateTribe. -/
structure PTile where
  isLand : Bool
  habitability : ℚ
  riverPresence : String
  distanceToCoast : ℚ
  biomeType : String
  roughness : ℚ
deriving DecidableEq, Repr

/-- The tribe fields read and written by migrateTribe; rationality is
leader.traits.rationality. -/
structure PTribe where
  id : ℕ
  x : ℤ
  y : ℤ
  rationality : ℚ
  territories : List (ℤ × ℤ)
  migrationCooldown : ℤ
  settlementYears : ℤ
deriving DecidableEq, Repr

/-- One scored migration candidate. -/
structure MigCand where
  x : ℤ
  y : ℤ
  score : ℚ
deriving DecidableEq, Repr

/-- The additive score of a candidate tile (lines 926-940). -/
def migScore (tile : PTile) : ℚ :=
  tile.habitability * 100
    + (if tile.riverPresence = "major" then 50
       else if tile.riverPresence = "minor" then 25 else 0)
    + (if tile.distanceToCoast < 2 then 30 else 0)
    - (if tile.biomeType = "desert" then 40 else 0)
    - (if tile.biomeType = "ice" ∨ tile.biomeType = "tundra" then 60 else 0)
    - (if 0.5 < tile.roughness then 30 else 0)

/-- The (dy, dx) offsets scanned by the nested radius-2 loops, dy outer,
dx inner, skipping (0,0). -/
def migOffsets : List (ℤ × ℤ) :=
  ((List.range 5).map (fun a => (a : ℤ) - 2)).flatMap (fun dy =>
    ((List.range 5).map (fun a => (a : ℤ) - 2)).filterMap (fun dx =>
      if dy = 0 ∧ dx = 0 then none else some (dy, dx)))

/-- The candidate list built by migrateTribe (lines 905-944): x wraps mod
256, y out of [0,128) is skipped, ocean tiles are skipped, tiles occupied
by a different tribe are skipped, the rest are scored. -/
def migCandidates (tribe : PTribe) (tiles : ℤ → ℤ → PTile)
    (tribes : List PTribe) : List MigCand :=
  migOffsets.filterMap (fun d =>
    let nx := (tribe.x + d.2 + 256) % 256
    let ny := tribe.y + d.1
    if ny < 0 ∨ 128 ≤ ny then none
    else
      let tile := tiles nx ny
      if tile.isLand = false then none
      else if tribes.any (fun t =>
          decide (t.id ≠ tribe.id) && t.territories.any (fun p => decide (p = (nx, ny)))) then
        none
      else some { x := nx, y := ny, score := migScore tile })

/-- The candidate list sorted by score descending, as by the stable
neighbors.sort((a, b) => b.score - a.score). -/
def migSorted (tribe : PTribe) (tiles : ℤ → ℤ → PTile)
    (tribes : List PTribe) : List MigCand :=
  (migCandidates tribe tiles tribes).mergeSort (fun a b => decide (b.score ≤ a.score))

/-- migrateTribe (lines 898-980).  With rationality < 0.3 and a 2% roll
the tribe picks one of the three worst candidates (one extra stream value
feeds the questionable-decision log); otherwise it picks from the top
max(1, floor((1 - rationality) * 5) + 1) candidates.  Either way the
territories become the single chosen tile, migrationCooldown becomes
floor(range(15, 35)) and settlementYears resets; a final stream value
feeds the migration log roll. -/
def migrateTribe (tribe : PTribe) (tiles : ℤ → ℤ → PTile) (tribes : List PTribe)
    (s : RngStream) (i : ℕ) : PTribe × ℕ :=
  let neighbors := migCandidates tribe tiles tribes
  if neighbors = [] then (tribe, i)
  else
    let sorted := migSorted tribe tiles tribes
    if tribe.rationality < 0.3 then
      if s i < 0.02 then
        let worstIndex := max 0 ((sorted.length : ℤ) - 1 - ⌊s (i + 1) * 3⌋)
        let choice := sorted.getD worstIndex.toNat ⟨0, 0, 0⟩
        ({ tribe with
            x := choice.x, y := choice.y, territories := [(choice.x, choice.y)],
            migrationCooldown := ⌊(15 : ℚ) + s (i + 3) * (35 - 15)⌋,
            settlementYears := 0 }, i + 5)
      else
        let topChoices := max 1 (⌊(1 - tribe.rationality) * 5⌋ + 1)
        let choice := sorted.getD
          (⌊s (i + 1) * ((min topChoices (sorted.length : ℤ) : ℤ) : ℚ)⌋).toNat ⟨0, 0, 0⟩
        ({ tribe with
            x := choice.x, y := choice.y, territories := [(choice.x, choice.y)],
            migrationCooldown := ⌊(15 : ℚ) + s (i + 2) * (35 - 15)⌋,
            settlementYears := 0 }, i + 4)
    else
      let topChoices := max 1 (⌊(1 - tribe.rationality) * 5⌋ + 1)
      let choice := sorted.getD
        (⌊s i * ((min topChoices (sorted.length : ℤ) : ℤ) : ℚ)⌋).toNat ⟨0, 0, 0⟩
      ({ tribe with
          x := choice.x, y := choice.y, territories := [(choice.x, choice.y)],
          migrationCooldown := ⌊(15 : ℚ) + s (i + 1) * (35 - 15)⌋,
          settlementYears := 0 }, i + 3)

/-! ## Lemmas for C7 -/

theorem floor_nonneg_lt {u : ℚ} (m : ℤ) (h0 : 0 ≤ u) (h1 : u < 1) (hm : 0 < m) :
    0 ≤ ⌊u * (m : ℚ)⌋ ∧ ⌊u * (m : ℚ)⌋ < m := by
  constructor
  · exact Int.le_floor.mpr (by push_cast; positivity)
  · rw [Int.floor_lt]
    calc u * (m : ℚ) < 1 * (m : ℚ) := by
          apply mul_lt_mul_of_pos_right h1
          exact_mod_cast hm
      _ = (m : ℚ) := one_mul _

theorem cooldown_bounds {u : ℚ} (h0 : 0 ≤ u) (h1 : u < 1) :
    15 ≤ ⌊(15 : ℚ) + u * (35 - 15)⌋ ∧ ⌊(15 : ℚ) + u * (35 - 15)⌋ ≤ 35 := by
  constructor
  · exact Int.le_floor.mpr (by push_cast; nlinarith)
  · have hlt : ⌊(15 : ℚ) + u * (35 - 15)⌋ < 35 := by
      rw [Int.floor_lt]
      push_cast
      nlinarith
    omega

theorem getD_mem_of_lt (l : List MigCand) (n : ℕ) (hn : n < l.length) :
    l.getD n ⟨0, 0, 0⟩ ∈ l := by
  rw [List.getD_eq_getElem l _ hn]
  exact List.getElem_mem hn

theorem getD_mem_drop (l : List MigCand) (n k : ℕ) (hk : k ≤ n) (hn : n < l.length) :
    l.getD n ⟨0, 0, 0⟩ ∈ l.drop k := by
  rw [List.getD_eq_getElem l _ hn, List.mem_iff_getElem]
  refine ⟨n - k, by simp [List.length_drop]; omega, ?_⟩
  rw [List.getElem_drop]
  congr 1
  omega

theorem getD_mem_take (l : List MigCand) (n t : ℕ) (ht : n < t) (hn : n < l.length) :
    l.getD n ⟨0, 0, 0⟩ ∈ l.take t := by
  rw [List.getD_eq_getElem l _ hn, List.mem_iff_getElem]
  exact ⟨n, by simp [List.length_take]; omega, List.getElem_take l⟩

theorem migSorted_perm (tribe : PTribe) (tiles : ℤ → ℤ → PTile) (tribes : List PTribe) :
    (migSorted tribe tiles tribes).Perm (migCandidates tribe tiles tribes) :=
  List.mergeSort_perm _ _

theorem migSorted_pairwise (tribe : PTribe) (tiles : ℤ → ℤ → PTile) (tribes : List PTribe) :
    (migSorted tribe tiles tribes).Pairwise (fun a b => b.score ≤ a.score) := by
  have h := @List.sorted_mergeSort MigCand
    (fun a b : MigCand => decide (b.score ≤ a.score))
    (fun a b c hab hbc =>
      decide_eq_true (le_trans (of_decide_eq_true hbc) (of_decide_eq_true hab)))
    (fun a b => by
      simp only [Bool.or_eq_true, decide_eq_true_eq]
      exact le_total b.score a.score)
    (migCandidates tribe tiles tribes)
  exact h.imp (fun hab => of_decide_eq_true hab)

/-- C7.  When migrateTribe fires on a nonempty candidate list, the sorted
candidate list is a descending-by-score permutation of the scored radius-2
candidates; afterwards the territories are exactly the single chosen tile,
migrationCooldown is an integer in [15, 35] and settlementYears is 0; the
chosen tile comes from the three worst candidates exactly in the
low-rationality 2%-roll branch, and otherwise from the top
max(1, floor((1 - rationality) * 5) + 1) candidates. -/
theorem claim_C7_migration (tribe : PTribe) (tiles : ℤ → ℤ → PTile)
    (tribes : List PTribe) (s : RngStream) (i : ℕ)
    (hne : migCandidates tribe tiles tribes ≠ [])
    (hs : ∀ n, 0 ≤ s n ∧ s n < 1) :
    (migSorted tribe tiles tribes).Perm (migCandidates tribe tiles tribes) ∧
    (migSorted tribe tiles tribes).Pairwise (fun a b => b.score ≤ a.score) ∧
    (migrateTribe tribe tiles tribes s i).1.settlementYears = 0 ∧
    15 ≤ (migrateTribe tribe tiles tribes s i).1.migrationCooldown ∧
    (migrateTribe tribe tiles tribes s i).1.migrationCooldown ≤ 35 ∧
    ∃ c ∈ migSorted tribe tiles tribes,
      (migrateTribe tribe tiles tribes s i).1.x = c.x ∧
      (migrateTribe tribe tiles tribes s i).1.y = c.y ∧
      (migrateTribe tribe tiles tribes s i).1.territories = [(c.x, c.y)] ∧
      (tribe.rationality < 0.3 → s i < 0.02 →
        3 ≤ (migSorted tribe tiles tribes).length →
        c ∈ (migSorted tribe tiles tribes).drop
          ((migSorted tribe tiles tribes).length - 3)) ∧
      (¬ (tribe.rationality < 0.3 ∧ s i < 0.02) →
        c ∈ (migSorted tribe tiles tribes).take
          (max 1 (⌊(1 - tribe.rationality) * 5⌋ + 1)).toNat) := by
  have hlen1 : 1 ≤ (migSorted tribe tiles tribes).length := by
    have hp := (migSorted_perm tribe tiles tribes).length_eq
    rcases hm : migCandidates tribe tiles tribes with _ | ⟨a, l⟩
    · exact absurd hm hne
    · rw [hm] at hp
      simp [hp]
  refine ⟨migSorted_perm tribe tiles tribes, migSorted_pairwise tribe tiles tribes, ?_⟩
  by_cases hr : tribe.rationality < 0.3
  · by_cases hroll : s i < 0.02
    · -- three-worst branch
      simp only [migrateTribe, if_neg hne, if_pos hr, if_pos hroll]
      obtain ⟨hf0, hflt⟩ := floor_nonneg_lt 3 (hs (i + 1)).1 (hs (i + 1)).2 (by norm_num)
      obtain ⟨hc1, hc2⟩ := cooldown_bounds (hs (i + 3)).1 (hs (i + 3)).2
      push_cast at hf0 hflt
      have hwlt : (max 0 ((((migSorted tribe tiles tribes).length : ℤ)) - 1 -
          ⌊s (i + 1) * 3⌋)).toNat < (migSorted tribe tiles tribes).length := by
        omega
      refine ⟨by trivial, hc1, hc2, ?_⟩
      refine ⟨_, getD_mem_of_lt _ _ hwlt, by trivial, by trivial, by trivial, ?_, ?_⟩
      · intro _ _ h3
        exact getD_mem_drop _ _ _ (by omega) hwlt
      · intro habs
        exact absurd ⟨hr, hroll⟩ habs
    · -- top-choices branch after a consumed 2% roll
      simp only [migrateTribe, if_neg hne, if_pos hr, if_neg hroll]
      obtain ⟨hc1, hc2⟩ := cooldown_bounds (hs (i + 2)).1 (hs (i + 2)).2
      have hm : 0 < min (max 1 (⌊(1 - tribe.rationality) * 5⌋ + 1))
          ((migSorted tribe tiles tribes).length : ℤ) := by
        omega
      obtain ⟨hf0, hflt⟩ := floor_nonneg_lt _ (hs (i + 1)).1 (hs (i + 1)).2 hm
      have hklt : (⌊s (i + 1) * ((min (max 1 (⌊(1 - tribe.rationality) * 5⌋ + 1))
          ((migSorted tribe tiles tribes).length : ℤ) : ℤ) : ℚ)⌋).toNat <
          (migSorted tribe tiles tribes).length := by
        omega
      refine ⟨by trivial, hc1, hc2, ?_⟩
      refine ⟨_, getD_mem_of_lt _ _ hklt, by trivial, by trivial, by trivial, ?_, ?_⟩
      · intro _ hroll2 _
        exact absurd hroll2 hroll
      · intro _
        exact getD_mem_take _ _ _ (by omega) hklt
  · -- top-choices branch, no 2% roll consumed
    simp only [migrateTribe, if_neg hne, if_neg hr]
    obtain ⟨hc1, hc2⟩ := cooldown_bounds (hs (i + 1)).1 (hs (i + 1)).2
    have hm : 0 < min (max 1 (⌊(1 - tribe.rationality) * 5⌋ + 1))
        ((migSorted tribe tiles tribes).length : ℤ) := by
      omega
    obtain ⟨hf0, hflt⟩ := floor_nonneg_lt _ (hs i).1 (hs i).2 hm
    have hklt : (⌊s i * ((min (max 1 (⌊(1 - tribe.rationality) * 5⌋ + 1))
        ((migSorted tribe tiles tribes).length : ℤ) : ℤ) : ℚ)⌋).toNat <
        (migSorted tribe tiles tribes).length := by
      omega
    refine ⟨by trivial, hc1, hc2, ?_⟩
    refine ⟨_, getD_mem_of_lt _ _ hklt, by trivial, by trivial, by trivial, ?_, ?_⟩
    · intro hr2 _ _
      exact absurd hr2 hr
    · intro _
      exact getD_mem_take _ _ _ (by omega) hklt

/-- A uniform all-land tile sheet for the C7 witness. -/
def migTilesW : ℤ → ℤ → PTile := fun _ _ =>
  { isLand := true, habitability := 1/2, riverPresence := "none",
    distanceToCoast := 5, biomeType := "grassland", roughness := 0 }

/-- A lone tribe in the middle of the map for the C7 witness. -/
def migTribeW : PTribe :=
  { id := 1, x := 10, y := 10, rationality := 1/2,
    territories := [(10, 10)], migrationCooldown := 0, settlementYears := 7 }

/-- C7 witness: the migration theorem applied to a lone tribe on an
all-land sheet with the all-zero stream. -/
theorem claim_C7_migration_witness :
    (migrateTribe migTribeW migTilesW [migTribeW] (constStream 0) 0).1.settlementYears = 0 ∧
    15 ≤ (migrateTribe migTribeW migTilesW [migTribeW] (constStream 0) 0).1.migrationCooldown ∧
    (migrateTribe migTribeW migTilesW [migTribeW] (constStream 0) 0).1.migrationCooldown ≤ 35 := by
  have hne : migCandidates migTribeW migTilesW [migTribeW] ≠ [] := by
    intro hnil
    have hmem : ((-2 : ℤ), (-2 : ℤ)) ∈ migOffsets := by decide
    have hf := (List.filterMap_eq_nil_iff.mp hnil) (-2, -2) hmem
    norm_num [migCandidates, migTilesW, migTribeW] at hf
    exact Option.noConfusion hf
  have h := claim_C7_migration migTribeW migTilesW [migTribeW] (constStream 0) 0
    hne (fun n => by norm_num [constStream])
  exact ⟨h.2.2.1, h.2.2.2.1, h.2.2.2.2.1⟩

end PlanetSim
